import Mathlib

/-!
Verification of the Mythos Nest service core (`src/nest_service.py`,
`src/config.py`): the in-memory document index, the TTL refresh policy,
the scoring/snippet engine and the search orchestration, shallowly
embedded in Lean.  Strings are `List Char`, Python floats are modelled
as exact rationals, and the external Google-Drive / pdfminer world is an
explicit oracle record.
-/

namespace Nest

/-- ASCII lower-casing of one character, the model of Python's
`str.lower` on the character sets the service handles. -/
def lowerChar (c : Char) : Char :=
  if 'A' ≤ c ∧ c ≤ 'Z' then Char.ofNat (c.toNat + 32) else c

/-- `text.lower()`. -/
def pyLower (s : List Char) : List Char := s.map lowerChar

/-- Auxiliary scan for `str.count`: number of non-overlapping occurrences
of a non-empty pattern `q`, each match advancing past the full matched
span.  The `skip` counter consumes the tail of the last match one
character at a time so that the recursion is structural. -/
def countScan (q : List Char) (skip : Nat) : List Char → Nat
  | [] => 0
  | c :: rest =>
    match skip with
    | n + 1 => countScan q n rest
    | 0 =>
      if q.isPrefixOf (c :: rest) then 1 + countScan q (q.length - 1) rest
      else countScan q 0 rest

/-- Python `t.count(q)`: non-overlapping occurrences; for the empty
pattern Python returns `len(t) + 1`. -/
def pyCount (t q : List Char) : Nat :=
  if q = [] then t.length + 1 else countScan q 0 t

/-- Python `t.find(q)`: index of the first occurrence, `none` for `-1`.
The empty pattern is found at index 0 (also in the empty string). -/
def pyFind (q : List Char) : List Char → Option Nat
  | [] => if q = [] then some 0 else none
  | c :: rest =>
    if q.isPrefixOf (c :: rest) then some 0
    else (pyFind q rest).map (· + 1)

/-- Non-overlapping left-to-right replacement scan for a non-empty
pattern (the recursive core of Python `str.replace`); the `skip` counter
consumes the span of the last match one character at a time so that the
recursion is structural. -/
def replaceScan (old new : List Char) (skip : Nat) : List Char → List Char
  | [] => []
  | c :: rest =>
    match skip with
    | n + 1 => replaceScan old new n rest
    | 0 =>
      if old.isPrefixOf (c :: rest) then
        new ++ replaceScan old new (old.length - 1) rest
      else c :: replaceScan old new 0 rest

/-- Python `t.replace(old, new)`: every non-overlapping occurrence of
`old` replaced by `new`; for empty `old`, `new` is inserted before every
character and at the end. -/
def pyReplace (t old new : List Char) : List Char :=
  if old = [] then new ++ t.flatMap (fun c => c :: new)
  else replaceScan old new 0 t

/-- The characters Python's `str.strip()` removes (ASCII whitespace). -/
def isPySpace (c : Char) : Bool :=
  c = ' ' ∨ c = '\t' ∨ c = '\n' ∨ c = '\r' ∨ c = Char.ofNat 11 ∨ c = Char.ofNat 12

/-- Python `t.strip()`. -/
def pyStrip (t : List Char) : List Char :=
  ((t.dropWhile isPySpace).reverse.dropWhile isPySpace).reverse

/-- `text.replace("\x00", "")`: removal of null characters. -/
def pyRemoveNulls (t : List Char) : List Char :=
  t.filter (fun c => !(c = Char.ofNat 0))

/-- Python slice `t[a:b]` for `0 ≤ a ≤ b` (`take` then `drop`). -/
def pySlice (t : List Char) (a b : Nat) : List Char :=
  (t.take b).drop a

/-- `_needs_refresh` (nest_service.py lines 95-98): stale when no index
was ever built, else when strictly more than `ttl` seconds elapsed. -/
def needsRefresh (builtAt : Option ℚ) (ttl now : ℚ) : Bool :=
  match builtAt with
  | none => true
  | some t => now - t > ttl

/-- `_snippet` (nest_service.py lines 100-109). -/
def pySnippet (text query : List Char) (width : Nat) : List Char :=
  let q := pyLower query
  let t := pyLower text
  match pyFind q t with
  | none => text.take width ++ (if text.length > width then ['…'] else [])
  | some pos =>
    let start := pos - width / 2
    let stop := min text.length (pos + q.length + width / 2)
    pyReplace ((text.drop start).take (stop - start)) query
      (['*', '*'] ++ query ++ ['*', '*'])

/-- `_score` (nest_service.py lines 111-119): 0 on empty text or no hit,
else hits normalised by length in kilo-characters. -/
def pyScore (text query : List Char) : ℚ :=
  if text = [] then 0
  else
    let lc := pyLower text
    let q := pyLower query
    let hits := pyCount lc q
    if hits = 0 then 0
    else (hits : ℚ) / max 1 ((lc.length : ℚ) / 1000)

/-- An indexed document: `{"id": ..., "title": ..., "text": ...}`
(nest_service.py line 151). -/
structure Doc where
  id : List Char
  title : List Char
  text : List Char
deriving DecidableEq, Repr

/-- `SearchHit` (nest_service.py lines 78-82). -/
structure SearchHit where
  id : List Char
  title : List Char
  score : ℚ
  snippet : List Char
deriving DecidableEq, Repr

/-- `SearchResponse` (nest_service.py lines 84-87). -/
structure SearchResponse where
  hits : List SearchHit
  total_docs : Nat
  indexed_at : ℚ
deriving DecidableEq, Repr

/-- The service's mutable globals `INDEX` and `INDEXED_AT`
(nest_service.py lines 51-52). -/
structure NestState where
  index : List Doc
  indexedAt : Option ℚ
deriving DecidableEq, Repr

/-- Insertion step of a stable descending sort: `x` is placed before the
first element it is not strictly below, so equal-key elements keep their
original relative order — the behaviour of Python's stable `list.sort`. -/
def insertByDesc (lt : α → α → Bool) (x : α) : List α → List α
  | [] => [x]
  | y :: ys => if lt x y then y :: insertByDesc lt x ys else x :: y :: ys

/-- Stable descending sort, the model of Python
`list.sort(key=..., reverse=True)` / `sorted(..., reverse=True)`. -/
def sortByDesc (lt : α → α → Bool) : List α → List α
  | [] => []
  | x :: xs => insertByDesc lt x (sortByDesc lt xs)

/-- Strict comparison on hit scores, the key of the sort at
nest_service.py line 198. -/
def scoreLt (a b : SearchHit) : Bool := a.score < b.score

/-- Python slice `l[:k]` for an arbitrary integer `k`: a non-negative
`k` keeps the first `k` elements, a negative `k` drops the last `|k|`. -/
def pySliceTo (k : Int) (l : List α) : List α :=
  if 0 ≤ k then l.take k.toNat else l.take (l.length - (-k).toNat)

/-- The scored-hit list built by the loop at nest_service.py lines
187-196: one hit per indexed document with strictly positive score, in
index order. -/
def scoredList (index : List Doc) (q : List Char) : List SearchHit :=
  index.filterMap (fun d =>
    let s := pyScore d.text q
    if 0 < s then some ⟨d.id, d.title, s, pySnippet d.text q 200⟩ else none)

/-- The pure tail of `search` (nest_service.py lines 184-200), applied
to the state left by `ensure_index`: empty-index short-circuit, scoring,
stable descending sort, slicing to `top_k`. -/
def searchPure (index : List Doc) (indexedAt : Option ℚ) (q : List Char)
    (topK : Int) : SearchResponse :=
  if index = [] then ⟨[], 0, indexedAt.getD 0⟩
  else
    let scored := scoredList index q
    ⟨pySliceTo topK (sortByDesc scoreLt scored), index.length, indexedAt.getD 0⟩

/-- Exceptions of the embedded Python fragments. -/
inductive PyErr where
  | missingFolderId
  | missingOAuth
  | external (code : Nat)
deriving DecidableEq, Repr

/-- One entry of the Drive listing: `files(id, name, ...)`; `name` is
optional, `f.get("name", file_id)` defaults the title to the id. -/
structure FileMeta where
  id : List Char
  name : Option (List Char)
deriving DecidableEq, Repr

/-- Lexicographic `<` on Python strings (code-point order). -/
def pyStrLt : List Char → List Char → Bool
  | [], [] => false
  | [], _ :: _ => true
  | _ :: _, [] => false
  | a :: as, b :: bs => if a < b then true else if b < a then false else pyStrLt as bs

/-- Settings read by the core (`config.py`): `NEST_MAX_FILES` and
`NEST_TTL_SECS`. -/
structure Config where
  maxFiles : Nat
  ttl : ℚ
deriving DecidableEq, Repr

/-- The external world of one rebuild: configuration presence, the Drive
listing call, per-file download, pdfminer extraction, and the clock. -/
structure DriveEnv where
  folderId : Option (List Char)
  credsOk : Bool
  listing : Except PyErr (List FileMeta)
  download : List Char → Except PyErr (List Char)
  extractText : List Char → Except PyErr (List Char)
  now : ℚ

/-- `if not folder_id` (nest_service.py line 128): both an absent and an
empty folder id are falsy. -/
def folderTruthy : Option (List Char) → Bool
  | none => false
  | some s => s ≠ []

/-- `extract_text(buf) or ""` followed by `.strip().replace("\x00","")`
(nest_service.py lines 149-150); a pdfminer exception propagates to the
surrounding per-file handler. -/
def extractPipeline (r : Except PyErr (List Char)) : Except PyErr (List Char) :=
  r.map (fun s => pyRemoveNulls (pyStrip s))

/-- The `try` body of the per-file loop (nest_service.py lines 139-151):
download the file, extract its text, build the index entry; any failure
is an error caught by the `except` clause. -/
def processFile (env : DriveEnv) (f : FileMeta) : Except PyErr Doc :=
  match env.download f.id with
  | .error e => .error e
  | .ok raw =>
    match extractPipeline (env.extractText raw) with
    | .error e => .error e
    | .ok txt => .ok ⟨f.id, f.name.getD f.id, txt⟩

/-- The listing actually indexed: sorted by descending id and truncated
to `NEST_MAX_FILES` (nest_service.py line 135). -/
def chosenFiles (fs : List FileMeta) (cfg : Config) : List FileMeta :=
  (sortByDesc (fun f g => pyStrLt f.id g.id) fs).take cfg.maxFiles

/-- `_index_drive_folder` (nest_service.py lines 124-157) as a state
transformer: the result (count or raised exception) together with the
globals after the call.  `INDEX`/`INDEXED_AT` are assigned only after
the whole new index is assembled, so every error path leaves the state
untouched; a file whose processing raises is skipped by the `except`
clause. -/
def indexDriveFolderRun (env : DriveEnv) (cfg : Config) (st : NestState) :
    Except PyErr Nat × NestState :=
  if ¬ folderTruthy env.folderId then (.error .missingFolderId, st)
  else if ¬ env.credsOk then (.error .missingOAuth, st)
  else
    match env.listing with
    | .error e => (.error e, st)
    | .ok fs =>
      let newIndex := (chosenFiles fs cfg).filterMap
        (fun f => (processFile env f).toOption)
      (.ok newIndex.length, ⟨newIndex, some env.now⟩)

/-- True when the rebuild gets as far as calling the Drive adapter
(configuration present, client built): the listing request is issued. -/
def adapterInvoked (env : DriveEnv) : Bool :=
  folderTruthy env.folderId && env.credsOk

/-- `ensure_index` (nest_service.py lines 159-161) as a state
transformer; the boolean records whether the Drive adapter was invoked. -/
def ensureIndexRun (env : DriveEnv) (cfg : Config) (st : NestState) :
    Except PyErr NestState × Bool :=
  if needsRefresh st.indexedAt cfg.ttl env.now then
    match indexDriveFolderRun env cfg st with
    | (.ok _, st2) => (.ok st2, adapterInvoked env)
    | (.error e, _) => (.error e, adapterInvoked env)
  else (.ok st, false)

/-- The `search` endpoint (nest_service.py lines 181-200): refresh if
stale, then the pure scoring/sorting tail.  Returns the response (or the
propagated exception), the state after the call, and whether the Drive
adapter was invoked. -/
def searchRun (env : DriveEnv) (cfg : Config) (st : NestState)
    (q : List Char) (topK : Int) :
    Except PyErr SearchResponse × NestState × Bool :=
  match ensureIndexRun env cfg st with
  | (.error e, flag) => (.error e, st, flag)
  | (.ok st2, flag) =>
    (.ok (searchPure st2.index st2.indexedAt q topK), st2, flag)

/-- Modelled from the spec: the two-stage extractor of §4.1.  The code
under src/ has no Stage 2 — this definition follows the spec's words
(structured extraction, then, only when it yields an empty string, an
optical fallback over a bounded number of rendered pages whose
recognised texts are joined with newline separators) for comparison
with the code's `extractPipeline`. -/
def specTwoStageExtract (stage1 : Except PyErr (List Char))
    (ocrPages : List (List Char)) (pageLimit : Nat) : List Char :=
  let s1 := match stage1 with
    | .ok s => pyRemoveNulls (pyStrip s)
    | .error _ => []
  if s1 = [] then ((ocrPages.take pageLimit).intersperse ['\n']).flatten
  else s1

/-! ### Concrete fixtures used by witnesses and counterexamples -/

/-- Default settings: `NEST_MAX_FILES=5`, `NEST_TTL_SECS=3600`. -/
def cfgW : Config := ⟨5, 3600⟩

/-- Process start: empty index, never built. -/
def stEmpty : NestState := ⟨[], none⟩

/-- A previously built, non-empty index. -/
def stPrev : NestState := ⟨[⟨['d'], ['D'], ['x']⟩], some 5⟩

/-- An empty index freshly built at time 0. -/
def stFresh : NestState := ⟨[], some 0⟩

/-- One listed file with id `"a"` and display name `"A"`. -/
def fA : FileMeta := ⟨['a'], some ['A']⟩

/-- Full configuration, an empty Drive folder, benign oracles. -/
def envOkEmpty : DriveEnv :=
  ⟨some ['f'], true, .ok [], fun _ => .ok [], fun _ => .ok [], 0⟩

/-- Full configuration, one listed file whose text extraction raises. -/
def envExtractFails : DriveEnv :=
  ⟨some ['f'], true, .ok [fA], fun _ => .ok [], fun _ => .error (.external 7), 0⟩

/-- Full configuration, one listed file whose extraction succeeds with
empty text. -/
def envEmptyText : DriveEnv :=
  ⟨some ['f'], true, .ok [fA], fun _ => .ok [], fun _ => .ok [], 0⟩

/-- `NEST_DRIVE_FOLDER_ID` unset. -/
def envNoFolder : DriveEnv :=
  ⟨none, true, .ok [], fun _ => .ok [], fun _ => .ok [], 0⟩

/-- A one-word document. -/
def docCat : Doc := ⟨['A'], ['A'], ['c', 'a', 't']⟩

/-- The query `"cat"`. -/
def qCat : List Char := ['c', 'a', 't']

/-! ### Helper lemmas -/

/-- `pyScore` in closed form, with the length of the lower-cased text
rewritten to the length of the text itself. -/
theorem pyScore_eq (text query : List Char) :
    pyScore text query =
      if text = [] then 0
      else if pyCount (pyLower text) (pyLower query) = 0 then 0
      else (pyCount (pyLower text) (pyLower query) : ℚ) /
        max 1 ((text.length : ℚ) / 1000) := by
  simp [pyScore, pyLower]

theorem pyScore_nonneg (text query : List Char) : 0 ≤ pyScore text query := by
  rw [pyScore_eq]
  split
  · exact le_refl 0
  · split
    · exact le_refl 0
    · apply div_nonneg (by positivity)
      exact le_trans zero_le_one (le_max_left _ _)

theorem pyScore_pos_iff (text query : List Char) :
    0 < pyScore text query ↔
      text ≠ [] ∧ 0 < pyCount (pyLower text) (pyLower query) := by
  rw [pyScore_eq]
  by_cases h : text = []
  · simp [h]
  · rw [if_neg h]
    by_cases hc : pyCount (pyLower text) (pyLower query) = 0
    · simp [hc]
    · rw [if_neg hc]
      constructor
      · intro _
        exact ⟨h, Nat.pos_of_ne_zero hc⟩
      · intro _
        apply div_pos
        · exact_mod_cast Nat.pos_of_ne_zero hc
        · exact lt_of_lt_of_le zero_lt_one (le_max_left _ _)

theorem mem_insertByDesc {lt : α → α → Bool} {x z : α} {l : List α} :
    z ∈ insertByDesc lt x l ↔ z = x ∨ z ∈ l := by
  induction l with
  | nil => simp [insertByDesc]
  | cons y ys ih =>
    by_cases h : lt x y
    · simp only [insertByDesc, if_pos h, List.mem_cons, ih]
      tauto
    · simp only [insertByDesc, if_neg h, List.mem_cons]

theorem insertByDesc_perm (lt : α → α → Bool) (x : α) (l : List α) :
    List.Perm (insertByDesc lt x l) (x :: l) := by
  induction l with
  | nil => simp [insertByDesc]
  | cons y ys ih =>
    by_cases h : lt x y
    · rw [insertByDesc, if_pos h]
      exact List.Perm.trans (List.Perm.cons y ih) (List.Perm.swap x y ys)
    · rw [insertByDesc, if_neg h]

theorem sortByDesc_perm (lt : α → α → Bool) (l : List α) :
    List.Perm (sortByDesc lt l) l := by
  induction l with
  | nil => simp [sortByDesc]
  | cons x xs ih =>
    exact List.Perm.trans (insertByDesc_perm lt x (sortByDesc lt xs))
      (List.Perm.cons x ih)

/-- Inserting preserves descending pairwise order, for a strict
comparison that is asymmetric and whose negation is transitive. -/
theorem insertByDesc_pairwise {lt : α → α → Bool}
    (hasym : ∀ a b, lt a b = true → lt b a = false)
    (htrans : ∀ a b c, lt a b = false → lt b c = false → lt a c = false)
    {x : α} {l : List α}
    (hl : l.Pairwise (fun a b => lt a b = false)) :
    (insertByDesc lt x l).Pairwise (fun a b => lt a b = false) := by
  induction l with
  | nil => simp [insertByDesc]
  | cons y ys ih =>
    rcases List.pairwise_cons.mp hl with ⟨hy, hys⟩
    by_cases h : lt x y
    · rw [insertByDesc, if_pos h]
      refine List.pairwise_cons.mpr ⟨?_, ih hys⟩
      intro z hz
      rcases mem_insertByDesc.mp hz with rfl | hz
      · exact hasym _ _ h
      · exact hy z hz
    · rw [insertByDesc, if_neg h]
      refine List.pairwise_cons.mpr ⟨?_, hl⟩
      intro z hz
      rcases List.mem_cons.mp hz with rfl | hz
      · exact Bool.eq_false_iff.mpr h
      · exact htrans x y z (Bool.eq_false_iff.mpr h) (hy z hz)

theorem sortByDesc_pairwise {lt : α → α → Bool}
    (hasym : ∀ a b, lt a b = true → lt b a = false)
    (htrans : ∀ a b c, lt a b = false → lt b c = false → lt a c = false)
    (l : List α) :
    (sortByDesc lt l).Pairwise (fun a b => lt a b = false) := by
  induction l with
  | nil => simp [sortByDesc]
  | cons x xs ih => exact insertByDesc_pairwise hasym htrans ih

theorem scoreLt_asym (a b : SearchHit) : scoreLt a b = true → scoreLt b a = false := by
  simp only [scoreLt, decide_eq_true_eq, decide_eq_false_iff_not]
  intro h
  exact lt_asymm h

theorem scoreLt_negtrans (a b c : SearchHit) :
    scoreLt a b = false → scoreLt b c = false → scoreLt a c = false := by
  simp only [scoreLt, decide_eq_false_iff_not, not_lt]
  intro h1 h2
  exact le_trans h2 h1

/-- The hit sort is stable: inserting one element never reorders
elements of any fixed score, because an element is only moved past
strictly greater scores. -/
theorem filter_insertByDesc (x : SearchHit) (l : List SearchHit) (s : ℚ) :
    (insertByDesc scoreLt x l).filter (fun h => decide (h.score = s)) =
      (x :: l).filter (fun h => decide (h.score = s)) := by
  induction l with
  | nil => rfl
  | cons y ys ih =>
    by_cases hlt : scoreLt x y
    · rw [insertByDesc, if_pos hlt]
      have hlt2 : x.score < y.score := by simpa [scoreLt] using hlt
      by_cases hy : y.score = s
      · have hx : ¬ x.score = s := by
          intro hx
          rw [hx, hy] at hlt2
          exact lt_irrefl s hlt2
        simp [List.filter_cons, hx, hy, ih]
      · simp [List.filter_cons, hy, ih]
    · rw [insertByDesc, if_neg hlt]

theorem filter_sortByDesc (l : List SearchHit) (s : ℚ) :
    (sortByDesc scoreLt l).filter (fun h => decide (h.score = s)) =
      l.filter (fun h => decide (h.score = s)) := by
  induction l with
  | nil => rfl
  | cons x xs ih =>
    rw [sortByDesc, filter_insertByDesc, List.filter_cons, List.filter_cons, ih]

theorem pySliceTo_ofNat (k : Nat) (l : List α) :
    pySliceTo (k : Int) l = l.take k := by
  simp [pySliceTo]

theorem pySliceTo_neg (k : Int) (hk : k < 0) (l : List α) :
    pySliceTo k l = l.take (l.length - k.natAbs) := by
  rw [pySliceTo, if_neg (by omega)]
  congr 1
  omega

/-- Characterisation of a successful `_index_drive_folder` call: the
configuration was present, the listing succeeded, and the new state is
the successfully processed prefix of the chosen files, stamped with the
current time. -/
theorem indexRun_ok_state (env : DriveEnv) (cfg : Config) (st st2 : NestState)
    (n : Nat) (h : indexDriveFolderRun env cfg st = (.ok n, st2)) :
    folderTruthy env.folderId = true ∧ env.credsOk = true ∧
    ∃ fs, env.listing = .ok fs ∧
      st2 = ⟨(chosenFiles fs cfg).filterMap (fun f => (processFile env f).toOption),
        some env.now⟩ ∧
      n = st2.index.length := by
  by_cases h1 : folderTruthy env.folderId
  · by_cases h2 : env.credsOk
    · cases hl : env.listing with
      | error e => simp [indexDriveFolderRun, h1, h2, hl] at h
      | ok fs =>
        refine ⟨h1, h2, fs, rfl, ?_⟩
        simp only [indexDriveFolderRun, h1, h2, hl, not_true_eq_false,
          if_false, Prod.mk.injEq] at h
        obtain ⟨hn, hst⟩ := h
        subst hst
        exact ⟨rfl, (Except.ok.inj hn).symm⟩
    · simp [indexDriveFolderRun, h1, h2] at h
  · simp [indexDriveFolderRun, h1] at h

/-! ### Claims -/

/-- C1, counterexample: for `text = ""` and `query = ""` the
case-insensitive occurrence count is `1` (Python `"".count("")`), yet
the score is `0` because the empty text short-circuits — so "strictly
positive iff the occurrence count is positive" fails as stated. -/
theorem C1_counterexample :
    pyScore [] [] = 0 ∧ 0 < pyCount (pyLower []) (pyLower []) ∧
      ¬ 0 < pyScore [] [] := by
  refine ⟨rfl, by decide, ?_⟩
  rw [show pyScore [] [] = 0 from rfl]
  exact lt_irrefl 0

/-- C1 (amended): the score is 0 on empty text or a zero occurrence
count and otherwise `h / max(1, len(text)/1000)` with `h` the
non-overlapping case-insensitive count; it is always non-negative, and
strictly positive iff the text is non-empty and the occurrence count is
positive. -/
theorem C1_score_amended (text query : List Char) :
    pyScore text query =
      (if text = [] then 0
       else if pyCount (pyLower text) (pyLower query) = 0 then 0
       else (pyCount (pyLower text) (pyLower query) : ℚ) /
         max 1 ((text.length : ℚ) / 1000)) ∧
    0 ≤ pyScore text query ∧
    (0 < pyScore text query ↔
      text ≠ [] ∧ 0 < pyCount (pyLower text) (pyLower query)) :=
  ⟨pyScore_eq text query, pyScore_nonneg text query, pyScore_pos_iff text query⟩

/-- C1 witness: at text `"cat"`, query `"CAT"` the amended theorem
yields a strictly positive score. -/
theorem C1_score_amended_witness : 0 < pyScore qCat ['C', 'A', 'T'] :=
  (C1_score_amended qCat ['C', 'A', 'T']).2.2.mpr ⟨by decide, by decide⟩

/-- C6: `needs_refresh` is true when no index was ever built, and for a
built index true iff strictly more than `ttl` seconds have elapsed. -/
theorem C6_needs_refresh (ttl now t : ℚ) :
    needsRefresh none ttl now = true ∧
    (needsRefresh (some t) ttl now = true ↔ now - t > ttl) := by
  refine ⟨rfl, ?_⟩
  simp [needsRefresh]

/-- C6 witness: concrete instances of both halves. -/
theorem C6_needs_refresh_witness :
    needsRefresh none 3600 0 = true ∧ needsRefresh (some 0) 3600 3601 = true :=
  ⟨(C6_needs_refresh 3600 0 0).1,
    (C6_needs_refresh 3600 3601 0).2.mpr (by norm_num)⟩

/-- C5: when the lower-cased query does not occur in the lower-cased
text the snippet is the first `width` characters with an ellipsis
appended iff the text is longer; when it first occurs at `pos` the
snippet is the original-case window `[max(0, pos - width/2),
min(len(text), pos + len(query) + width/2))` with every literal
occurrence of the original query replaced by the emphasised form; a
query differing in case locates the window but is not emphasised
(conjunct at text `"BROWN"`). -/
theorem C5_snippet (text query : List Char) (width : Nat) :
    pySnippet text query width =
      (match pyFind (pyLower query) (pyLower text) with
       | none => text.take width ++ (if text.length > width then ['…'] else [])
       | some pos =>
         pyReplace
           (pySlice text (max 0 ((pos : Int) - ((width / 2 : Nat) : Int))).toNat
             (min text.length (pos + query.length + width / 2)))
           query (['*', '*'] ++ query ++ ['*', '*'])) ∧
    pySnippet ['B', 'R', 'O', 'W', 'N'] ['b', 'r', 'o', 'w', 'n'] 200 =
      ['B', 'R', 'O', 'W', 'N'] := by
  refine ⟨?_, by decide⟩
  cases hf : pyFind (pyLower query) (pyLower text) with
  | none => simp [pySnippet, hf]
  | some pos =>
    simp only [pySnippet, hf]
    have hq : (pyLower query).length = query.length := List.length_map _ _
    have hstart : (max 0 ((pos : Int) - ((width / 2 : Nat) : Int))).toNat =
        pos - width / 2 := by omega
    rw [hq, hstart, pySlice, List.drop_take]

/-- C4: for every query and index state the hits are the first `top_k`
elements of a descending stable sort of the positively scored documents
(taken in index order), the sorted list is a permutation of the scored
list that preserves the relative order of equal scores, `total_docs` is
the size of the full index and `indexed_at` the build timestamp with
default 0. -/
theorem C4_search_response (index : List Doc) (indexedAt : Option ℚ)
    (q : List Char) (k : Nat) :
    (searchPure index indexedAt q (k : Int)).hits =
      (sortByDesc scoreLt (scoredList index q)).take k ∧
    (searchPure index indexedAt q (k : Int)).hits.Pairwise
      (fun a b => b.score ≤ a.score) ∧
    List.Perm (sortByDesc scoreLt (scoredList index q)) (scoredList index q) ∧
    (∀ s : ℚ,
      (sortByDesc scoreLt (scoredList index q)).filter
          (fun h => decide (h.score = s)) =
        (scoredList index q).filter (fun h => decide (h.score = s))) ∧
    (searchPure index indexedAt q (k : Int)).total_docs = index.length ∧
    (searchPure index indexedAt q (k : Int)).indexed_at = indexedAt.getD 0 := by
  have hsorted : (sortByDesc scoreLt (scoredList index q)).Pairwise
      (fun a b => b.score ≤ a.score) := by
    refine List.Pairwise.imp ?_
      (sortByDesc_pairwise scoreLt_asym scoreLt_negtrans (scoredList index q))
    intro a b h
    simpa [scoreLt, not_lt] using h
  by_cases hidx : index = []
  · subst hidx
    refine ⟨by simp [searchPure, scoredList, sortByDesc], ?_, ?_, ?_, ?_, ?_⟩
    · simp [searchPure]
    · exact sortByDesc_perm _ _
    · exact fun s => filter_sortByDesc _ s
    · simp [searchPure]
    · simp [searchPure]
  · have hhits : (searchPure index indexedAt q (k : Int)).hits =
        (sortByDesc scoreLt (scoredList index q)).take k := by
      simp only [searchPure, if_neg hidx]
      exact pySliceTo_ofNat k _
    refine ⟨hhits, ?_, sortByDesc_perm _ _, fun s => filter_sortByDesc _ s, ?_, ?_⟩
    · rw [hhits]
      exact hsorted.sublist (List.take_sublist k _)
    · simp [searchPure, if_neg hidx]
    · simp [searchPure, if_neg hidx]

/-- C10: truncation is Python list slicing — `top_k = 0` yields no hits
while `total_docs` still reports the full index size, and a negative
`top_k` with at least `|top_k|` qualifying hits keeps the first
`n - |top_k|` sorted hits, dropping the lowest-scored tail. -/
theorem C10_slicing (index : List Doc) (indexedAt : Option ℚ) (q : List Char)
    (k : Int) (hne : index ≠ []) (hk : k < 0)
    (hn : k.natAbs ≤ (sortByDesc scoreLt (scoredList index q)).length) :
    (searchPure index indexedAt q 0).hits = [] ∧
    (searchPure index indexedAt q 0).total_docs = index.length ∧
    (searchPure index indexedAt q k).hits =
      (sortByDesc scoreLt (scoredList index q)).take
        ((sortByDesc scoreLt (scoredList index q)).length - k.natAbs) ∧
    (searchPure index indexedAt q k).total_docs = index.length := by
  refine ⟨?_, ?_, ?_, ?_⟩
  · simp only [searchPure, if_neg hne]
    rw [show (0 : Int) = ((0 : Nat) : Int) from rfl, pySliceTo_ofNat]
    exact List.take_zero _
  · simp [searchPure, if_neg hne]
  · simp only [searchPure, if_neg hne]
    exact pySliceTo_neg k hk _
  · simp [searchPure, if_neg hne]

/-- C10 witness: a one-document index where the query scores
positively; `top_k = -1` drops the single qualifying hit and
`top_k = 0` returns no hits while `total_docs` is 1. -/
theorem C10_slicing_witness :
    (searchPure [docCat] none qCat 0).hits = [] ∧
    (searchPure [docCat] none qCat 0).total_docs = 1 ∧
    (searchPure [docCat] none qCat (-1)).hits = [] := by
  have hpos : 0 < pyScore docCat.text qCat :=
    pyScore_pos_iff docCat.text qCat |>.mpr ⟨by decide, by decide⟩
  have hscored : scoredList [docCat] qCat =
      [⟨docCat.id, docCat.title, pyScore docCat.text qCat,
        pySnippet docCat.text qCat 200⟩] := by
    simp [scoredList, hpos]
  have h := C10_slicing [docCat] none qCat (-1) (by simp) (by norm_num)
    (by rw [hscored]; simp [sortByDesc, insertByDesc])
  refine ⟨h.1, by simpa using h.2.1, ?_⟩
  rw [h.2.2.1, hscored]
  simp [sortByDesc, insertByDesc]

/-- C7: whenever `_index_drive_folder` raises — missing folder id,
missing credentials, or a failing listing — the error goes to the
caller and the previous index and timestamp are exactly unchanged, so
no partial rebuild becomes visible. -/
theorem C7_failed_rebuild (env : DriveEnv) (cfg : Config) (st : NestState)
    (e : PyErr) (h : (indexDriveFolderRun env cfg st).1 = .error e) :
    (indexDriveFolderRun env cfg st).2 = st := by
  by_cases h1 : folderTruthy env.folderId
  · by_cases h2 : env.credsOk
    · cases hl : env.listing with
      | error e2 => simp [indexDriveFolderRun, h1, h2, hl]
      | ok fs => simp [indexDriveFolderRun, h1, h2, hl] at h
    · simp [indexDriveFolderRun, h1, h2]
  · simp [indexDriveFolderRun, h1]

/-- C7 witness: with the folder id unset, a rebuild over a previously
built non-empty index raises and leaves that index serving. -/
theorem C7_failed_rebuild_witness :
    (indexDriveFolderRun envNoFolder cfgW stPrev).2 = stPrev :=
  C7_failed_rebuild envNoFolder cfgW stPrev .missingFolderId rfl

/-- C9: a successful rebuild stamps `built_at` with the rebuild time;
for any non-negative TTL and any later query time within the TTL,
`needs_refresh` is false and `ensure_index` performs no second rebuild
and does not invoke the adapter. -/
theorem C9_no_second_rebuild (env : DriveEnv) (cfg : Config)
    (st st2 : NestState) (n : Nat) (now2 : ℚ)
    (httl : 0 ≤ cfg.ttl)
    (hrun : indexDriveFolderRun env cfg st = (.ok n, st2))
    (helapsed : now2 - env.now ≤ cfg.ttl) :
    needsRefresh st2.indexedAt cfg.ttl now2 = false ∧
    ensureIndexRun { env with now := now2 } cfg st2 = (.ok st2, false) := by
  obtain ⟨-, -, fs, -, hst, -⟩ := indexRun_ok_state env cfg st st2 n hrun
  have hat : st2.indexedAt = some env.now := by rw [hst]
  have hfresh : needsRefresh st2.indexedAt cfg.ttl now2 = false := by
    rw [hat]
    simp only [needsRefresh, decide_eq_false_iff_not, not_lt]
    exact helapsed
  refine ⟨hfresh, ?_⟩
  unfold ensureIndexRun
  simp [hfresh]

/-- C9 witness: rebuild at time 0 over an empty folder, query at time
0 with the default TTL. -/
theorem C9_no_second_rebuild_witness :
    needsRefresh (some 0) 3600 0 = false ∧
    ensureIndexRun { envOkEmpty with now := 0 } cfgW stFresh =
      (.ok stFresh, false) :=
  C9_no_second_rebuild envOkEmpty cfgW stEmpty stFresh 0 0
    (by norm_num [cfgW]) rfl (by norm_num [cfgW, envOkEmpty])

/-- C3, counterexample: a rebuild that lists one document whose text
extraction raises still succeeds, but the resulting index omits the
document instead of including it with empty text. -/
theorem C3_counterexample :
    envExtractFails.listing = .ok [fA] ∧
    (indexDriveFolderRun envExtractFails cfgW stEmpty).1 = .ok 0 ∧
    (indexDriveFolderRun envExtractFails cfgW stEmpty).2.index = [] :=
  ⟨rfl, rfl, rfl⟩

/-- C3 (amended): after a successful rebuild the index is exactly the
chosen listing filtered to the documents whose download and extraction
succeeded, in listing order, stamped with the rebuild time; a document
extracted to empty text is included (with empty text), but a document
whose per-document processing raises is omitted. -/
theorem C3_index_amended (env : DriveEnv) (cfg : Config) (st st2 : NestState)
    (fs : List FileMeta) (n : Nat)
    (hl : env.listing = .ok fs)
    (h : indexDriveFolderRun env cfg st = (.ok n, st2)) :
    st2.index = (chosenFiles fs cfg).filterMap
      (fun f => (processFile env f).toOption) ∧
    st2.indexedAt = some env.now ∧
    n = st2.index.length ∧
    ∀ f ∈ chosenFiles fs cfg, ∀ d, processFile env f = .ok d →
      d ∈ st2.index := by
  obtain ⟨-, -, fs2, hl2, hst, hn⟩ := indexRun_ok_state env cfg st st2 n h
  have hfs : fs2 = fs := by
    rw [hl] at hl2
    exact (Except.ok.inj hl2).symm
  subst hfs
  refine ⟨by rw [hst], by rw [hst], hn, ?_⟩
  intro f hf d hd
  rw [hst]
  exact List.mem_filterMap.mpr ⟨f, hf, by rw [hd]; rfl⟩

/-- C3 witness: a rebuild whose single listed file extracts to empty
text includes that document, with empty text, in the new index. -/
theorem C3_index_amended_witness :
    (⟨['a'], ['A'], []⟩ : Doc) ∈
      (⟨[⟨['a'], ['A'], []⟩], some 0⟩ : NestState).index :=
  (C3_index_amended envEmptyText cfgW stEmpty ⟨[⟨['a'], ['A'], []⟩], some 0⟩
      [fA] 1 rfl rfl).2.2.2 fA (by decide) ⟨['a'], ['A'], []⟩ rfl

/-- C2, counterexample: the per-document extraction of the code has no
optical fallback — when structured extraction returns the empty string
the pipeline yields the empty string, not the text an optical stage
would have recognised (here `"HI"` on the first rendered page), and a
structured-extraction exception is passed on rather than converted to a
string. -/
theorem C2_counterexample :
    extractPipeline (.ok []) = .ok [] ∧
    specTwoStageExtract (.ok []) [['H', 'I']] 4 = ['H', 'I'] ∧
    extractPipeline (.ok []) ≠
      .ok (specTwoStageExtract (.ok []) [['H', 'I']] 4) ∧
    extractPipeline (.error (.external 7)) = .error (.external 7) := by
  refine ⟨rfl, rfl, ?_, rfl⟩
  intro hcontra
  exact absurd (Except.ok.inj hcontra) (by decide)

/-- C2 (amended): the pipeline cleans the structured-extraction result
and uses it directly — an empty Stage 1 result stays empty, with no
fallback — and a Stage 1 exception propagates out of the extraction
expression but is caught by the per-document handler of the rebuild
loop, so a rebuild with configuration and listing in order always
succeeds whatever the download/extraction oracles do. -/
theorem C2_extract_amended (env : DriveEnv) (cfg : Config) (st : NestState)
    (fs : List FileMeta)
    (h1 : folderTruthy env.folderId = true) (h2 : env.credsOk = true)
    (hl : env.listing = .ok fs) :
    (∀ s, extractPipeline (.ok s) = .ok (pyRemoveNulls (pyStrip s))) ∧
    (∀ e, extractPipeline (.error e) = .error e) ∧
    indexDriveFolderRun env cfg st =
      (.ok ((chosenFiles fs cfg).filterMap
          (fun f => (processFile env f).toOption)).length,
        ⟨(chosenFiles fs cfg).filterMap
          (fun f => (processFile env f).toOption), some env.now⟩) := by
  refine ⟨fun s => rfl, fun e => rfl, ?_⟩
  simp [indexDriveFolderRun, h1, h2, hl]

/-- C2 witness: with a raising extractor the rebuild still succeeds
(returning an empty index), and the pipeline of an empty Stage 1 result
is the empty string. -/
theorem C2_extract_amended_witness :
    extractPipeline (.ok []) = .ok (pyRemoveNulls (pyStrip [])) ∧
    indexDriveFolderRun envExtractFails cfgW stEmpty =
      (.ok ((chosenFiles [fA] cfgW).filterMap
          (fun f => (processFile envExtractFails f).toOption)).length,
        ⟨(chosenFiles [fA] cfgW).filterMap
          (fun f => (processFile envExtractFails f).toOption), some 0⟩) := by
  have h := C2_extract_amended envExtractFails cfgW stEmpty [fA] rfl rfl rfl
  exact ⟨h.1 [], h.2.2⟩

/-- C8, counterexample: with an empty, never-built index a query does
invoke the Drive adapter (the freshness check triggers a rebuild before
the empty-index short-circuit), so "search never invokes the adapter on
an empty index" fails as stated. -/
theorem C8_counterexample :
    stEmpty.index = [] ∧
    (searchRun envOkEmpty cfgW stEmpty ['x', 'y'] 5).2.2 = true :=
  ⟨rfl, rfl⟩

/-- C8 (amended): when the index is empty and fresh (no refresh
needed), search short-circuits to an empty hit list with `total_docs`
0, scores nothing, leaves the state unchanged and does not invoke the
adapter. -/
theorem C8_empty_amended (env : DriveEnv) (cfg : Config) (st : NestState)
    (q : List Char) (k : Int)
    (hempty : st.index = [])
    (hfresh : needsRefresh st.indexedAt cfg.ttl env.now = false) :
    searchRun env cfg st q k =
      (.ok ⟨[], 0, st.indexedAt.getD 0⟩, st, false) := by
  unfold searchRun ensureIndexRun
  simp [hfresh, searchPure, hempty]

/-- C8 witness: a fresh empty index at time 0 with the default TTL. -/
theorem C8_empty_amended_witness :
    searchRun envOkEmpty cfgW stFresh ['x', 'y'] 5 =
      (.ok ⟨[], 0, 0⟩, stFresh, false) :=
  C8_empty_amended envOkEmpty cfgW stFresh ['x', 'y'] 5 rfl
    (by norm_num [needsRefresh, stFresh, envOkEmpty, cfgW])

end Nest
